import Mathlib

/-!
Shallow embedding of the `binddict` dictionary binder (`src/__init__.py`).

Python values are modelled by the inductive `Value` (mappings are
association lists with string keys, the shape used throughout the
library); Python runtime types by `PyType`; the objects a schema node may
carry in its `"type"` entry by `Ty`, whose `other` constructor covers any
object outside the five recognized type objects.  Exceptions raised by the
code — the library's own `BindException` hierarchy as well as the builtin
`TypeError` and `KeyError` — are the constructors of `PyError`.

The recursive `__bind` mutates its `out` dictionary in place and lets
exceptions propagate, so it is embedded as a state-passing function
returning the dictionary state at the moment of return or raise together
with the raised exception, if any (`bindAux`).  The loop over a mapping
node's children is `bindChildren`; note that, exactly as in the source,
the loop variable `path` is rebound by `path = list(path); path.append(key)`
on every iteration, so the extended path is carried into later iterations.
-/

set_option maxHeartbeats 1000000

namespace Binddict

/-- Python runtime types of the values handled by the binder. -/
inductive PyType where
  | str
  | int
  | float
  | dict
  | list
  | bool
  | noneType
  deriving DecidableEq

/-- The object stored under `"type"` in a schema node: one of the five
recognized type objects `str`, `int`, `float`, `dict`, `list`, or any
other object (`other s` carries the `str()` rendering of that object,
which is all `__bind` ever uses of it). -/
inductive Ty where
  | str
  | int
  | float
  | dict
  | list
  | other (s : String)
  deriving DecidableEq

/-- Python values handled by the binder.  Dictionaries are association
lists with string keys in insertion order; floats are modelled as
rationals (no claim depends on float arithmetic). -/
inductive Value where
  | str (s : String)
  | int (n : Int)
  | bool (b : Bool)
  | float (q : Rat)
  | pyNone
  | dict (entries : List (String × Value))
  | list (elems : List Value)

/-- The runtime type of a value, as `type(value)` computes it. -/
def Value.typeOf : Value → PyType
  | .str _ => .str
  | .int _ => .int
  | .bool _ => .bool
  | .float _ => .float
  | .pyNone => .noneType
  | .dict _ => .dict
  | .list _ => .list

/-- Exceptions that a `bind` call can raise: the four classes of the
`BindException` hierarchy, plus the builtin `TypeError` (raised by a
coercion and not caught by `__bind`, which catches only `ValueError`) and
the builtin `KeyError` (raised by the `mapping['root']` lookup). -/
inductive PyError where
  | bindException (path : List String) (msg : String)
  | invalidTypeException (path : List String) (foundType : PyType)
      (expectedType : Ty) (value : Value) (strict : Bool)
  | invalidStringLengthException (path : List String) (value : Value)
      (constraint : String)
  | requiredValueMissingException (path : List String) (key : String)
  | typeError
  | keyError (key : String)

/-- A schema node: the entries of the node dictionary that `__bind` reads,
with the defaults `__bind` supplies (`strict=True`, `optional=False`,
`destination=None`, `min_len=None`, `max_len=None`, `children={}`). -/
inductive Node where
  | mk (type : Ty) (strict : Bool) (optional : Bool)
      (destination : Option String) (min_len max_len : Option Nat)
      (children : List (String × Node))

def Node.type : Node → Ty
  | .mk t _ _ _ _ _ _ => t

def Node.strict : Node → Bool
  | .mk _ s _ _ _ _ _ => s

def Node.optional : Node → Bool
  | .mk _ _ o _ _ _ _ => o

def Node.destination : Node → Option String
  | .mk _ _ _ d _ _ _ => d

def Node.min_len : Node → Option Nat
  | .mk _ _ _ _ mn _ _ => mn

def Node.max_len : Node → Option Nat
  | .mk _ _ _ _ _ mx _ => mx

def Node.children : Node → List (String × Node)
  | .mk _ _ _ _ _ _ cs => cs

/-- Lookup in a Python dictionary modelled as an association list. -/
def dictGet {α : Type} (d : List (String × α)) (k : String) : Option α :=
  match d with
  | [] => none
  | (k2, v) :: rest => if k2 = k then some v else dictGet rest k

/-- `d[k] = v` on a Python dictionary: replaces the value in place when the
key is present (keeping its position), appends otherwise. -/
def dictSet {α : Type} (d : List (String × α)) (k : String) (v : α) :
    List (String × α) :=
  match d with
  | [] => [(k, v)]
  | (k2, v2) :: rest =>
      if k2 = k then (k, v) :: rest else (k2, v2) :: dictSet rest k v

/-- The flat output dictionary accumulated by `__bind`. -/
abbrev Out := List (String × Value)

/-- Coercion failures: Python distinguishes `ValueError` (caught by
`__bind` and re-raised as `InvalidTypeException`) from `TypeError`
(not caught). -/
inductive CoerceErr where
  | valueError
  | typeError

def isDigitChar (c : Char) : Bool :=
  48 ≤ c.toNat && c.toNat ≤ 57

def isSpaceChar (c : Char) : Bool :=
  c = ' ' || c = '\t' || c = '\n' || c = '\r'

def dropSpaces : List Char → List Char
  | [] => []
  | c :: cs => if isSpaceChar c then dropSpaces cs else c :: cs

/-- Strip leading and trailing whitespace. -/
def trimChars (cs : List Char) : List Char :=
  (dropSpaces (dropSpaces cs).reverse).reverse

/-- Digit string to number, for `int()` / `float()` parsing. -/
def digitsVal (cs : List Char) : Nat :=
  cs.foldl (fun acc c => acc * 10 + (c.toNat - 48)) 0

/-- Nonempty and all ASCII digits. -/
def allDigits (cs : List Char) : Bool :=
  !cs.isEmpty && cs.all isDigitChar

/-- `int(s)` on a string: strip whitespace, optional sign, digits;
anything else raises `ValueError`.  (Underscore separators and non-ASCII
digits are not modelled.) -/
def pyIntOfString (s : String) : Option Int :=
  match trimChars s.data with
  | '-' :: ds => if allDigits ds then some (-(digitsVal ds : Int)) else none
  | '+' :: ds => if allDigits ds then some ((digitsVal ds : Int)) else none
  | ds => if allDigits ds then some ((digitsVal ds : Int)) else none

/-- Truncation toward zero, as `int()` applied to a float. -/
def ratTrunc (q : Rat) : Int :=
  if 0 ≤ q.num then q.num / (q.den : Int) else -((-q.num) / (q.den : Int))

/-- `int(value)`: ints pass through, bools and floats convert, strings
parse (`ValueError` on failure), everything else raises `TypeError`. -/
def pyInt : Value → Except CoerceErr Value
  | .int n => .ok (.int n)
  | .bool b => .ok (.int (if b then 1 else 0))
  | .float q => .ok (.int (ratTrunc q))
  | .str s =>
      match pyIntOfString s with
      | some n => .ok (.int n)
      | none => .error .valueError
  | .pyNone => .error .typeError
  | .dict _ => .error .typeError
  | .list _ => .error .typeError

/-- Split at the first decimal point, when there is one. -/
def breakDot : List Char → List Char × Option (List Char)
  | [] => ([], none)
  | c :: cs =>
      if c = '.' then ([], some cs)
      else
        let r := breakDot cs
        (c :: r.1, r.2)

/-- `float(s)` on a string: optional sign, decimal digits with an optional
single point (exponents, `inf` and `nan` are not modelled; no claim
depends on them). -/
def pyFloatOfString (s : String) : Option Rat :=
  let t := trimChars s.data
  let sb : Rat × List Char :=
    match t with
    | '-' :: ds => (-1, ds)
    | '+' :: ds => (1, ds)
    | ds => (1, ds)
  match breakDot sb.2 with
  | (ip, none) =>
      if allDigits ip then some (sb.1 * (digitsVal ip : Rat)) else none
  | (ip, some fp) =>
      if fp.any (fun c => c = '.') then none
      else if ip.isEmpty && fp.isEmpty then none
      else if (ip.isEmpty || ip.all isDigitChar) &&
              (fp.isEmpty || fp.all isDigitChar) then
        some (sb.1 * ((digitsVal ip : Rat) +
          (digitsVal fp : Rat) / ((10 : Rat) ^ fp.length)))
      else none

/-- `float(value)`. -/
def pyFloat : Value → Except CoerceErr Value
  | .float q => .ok (.float q)
  | .int n => .ok (.float (n : Rat))
  | .bool b => .ok (.float (if b then 1 else 0))
  | .str s =>
      match pyFloatOfString s with
      | some q => .ok (.float q)
      | none => .error .valueError
  | .pyNone => .error .typeError
  | .dict _ => .error .typeError
  | .list _ => .error .typeError

def floatStr (q : Rat) : String :=
  if q.den = 1 then toString q.num ++ ".0"
  else toString q.num ++ "/" ++ toString q.den

def pyQuote (s : String) : String :=
  "\x27" ++ s ++ "\x27"

mutual

/-- `repr(value)`; string escaping inside quotes is not modelled. -/
def pyRepr : Value → String
  | .str s => pyQuote s
  | .int n => toString n
  | .bool b => if b then "True" else "False"
  | .float q => floatStr q
  | .pyNone => "None"
  | .dict d => "\x7b" ++ String.intercalate ", " (pyReprPairs d) ++ "\x7d"
  | .list xs => "[" ++ String.intercalate ", " (pyReprElems xs) ++ "]"

def pyReprElems : List Value → List String
  | [] => []
  | v :: vs => pyRepr v :: pyReprElems vs

def pyReprPairs : List (String × Value) → List String
  | [] => []
  | (k, v) :: rest => (pyQuote k ++ ": " ++ pyRepr v) :: pyReprPairs rest

end

/-- `str(value)`: identity on strings, `repr` on containers. -/
def pyStr : Value → String
  | .str s => s
  | v => pyRepr v

/-- One item of the sequence passed to `dict(...)`: must be a pair.
Non-string keys are outside the modelled data (the library's dictionaries
are string-keyed throughout). -/
def pairOfItem : Value → Except CoerceErr (String × Value)
  | .list [.str k, v] => .ok (k, v)
  | .list _ => .error .valueError
  | .str s =>
      match s.toList with
      | [a, b] => .ok (String.singleton a, .str (String.singleton b))
      | _ => .error .valueError
  | _ => .error .typeError

def pairsOfItems : List Value → Except CoerceErr (List (String × Value))
  | [] => .ok []
  | v :: vs => do
      let p ← pairOfItem v
      let ps ← pairsOfItems vs
      pure (p :: ps)

/-- `dict(value)`. -/
def pyDict : Value → Except CoerceErr Value
  | .dict d => .ok (.dict d)
  | .list xs =>
      (pairsOfItems xs).map
        (fun ps => .dict (ps.foldl (fun acc p => dictSet acc p.1 p.2) []))
  | .str s => if s.isEmpty then .ok (.dict []) else .error .valueError
  | _ => .error .typeError

/-- `list(value)`: sequences pass through, strings become their
characters, dicts their keys; non-iterables raise `TypeError`. -/
def pyList : Value → Except CoerceErr Value
  | .list xs => .ok (.list xs)
  | .str s => .ok (.list (s.toList.map (fun c => Value.str (String.singleton c))))
  | .dict d => .ok (.list (d.map (fun p => Value.str p.1)))
  | _ => .error .typeError

/-- `type(value) is t`, for `t` one of the five recognized type objects. -/
def typeIs (v : Value) (t : Ty) : Bool :=
  match t, v with
  | .str, .str _ => true
  | .int, .int _ => true
  | .float, .float _ => true
  | .dict, .dict _ => true
  | .list, .list _ => true
  | _, _ => false

/-- `str(t)` for the object in a node's `"type"` entry. -/
def tyStr : Ty → String
  | .str => "<class \x27str\x27>"
  | .int => "<class \x27int\x27>"
  | .float => "<class \x27float\x27>"
  | .dict => "<class \x27dict\x27>"
  | .list => "<class \x27list\x27>"
  | .other s => s

/-- Whether `t` is in `[str, int, float, dict, list]`. -/
def Ty.isKnown : Ty → Bool
  | .other _ => false
  | _ => true

/-- The coercion branch of `__bind` (lines 216-226): which constructor is
applied when `strict` is false. -/
def coerce : Ty → Value → Except CoerceErr Value
  | .str, v => .ok (.str (pyStr v))
  | .int, v => pyInt v
  | .float, v => pyFloat v
  | .dict, v => pyDict v
  | .list, v => pyList v
  | .other _, _ => .error .typeError

/-- Lines 211-228 of `__bind`: strict type check, or coercion with only
`ValueError` caught and re-raised as `InvalidTypeException`. -/
def resolveType (value : Value) (node : Node) (path : List String) :
    Except PyError Value :=
  if node.strict then
    if typeIs value node.type then .ok value
    else .error (.invalidTypeException path value.typeOf node.type value true)
  else
    match coerce node.type value with
    | .ok fv => .ok fv
    | .error .valueError =>
        .error (.invalidTypeException path value.typeOf node.type value false)
    | .error .typeError => .error .typeError

/-- Lines 230-232 of `__bind`: `if destination: out[destination] = final_value`
(`None` and the empty string are falsy). -/
def writeDest (dest : Option String) (fv : Value) (out : Out) : Out :=
  match dest with
  | some d => if d = "" then out else dictSet out d fv
  | none => out

/-- Python truthiness of an optional length bound: `None` and `0` are falsy. -/
def optNatTruthy : Option Nat → Bool
  | none => false
  | some n => n != 0

/-- Lines 234-241 of `__bind`: the `min_len` check, then the `max_len`
check, on the final string value. -/
def checkStr (mn mx : Option Nat) (value : Value) (s : String)
    (path : List String) : Option PyError :=
  if optNatTruthy mn ∧ s.length < mn.getD 0 then
    some (.invalidStringLengthException path value
      (">= " ++ toString (mn.getD 0)))
  else if optNatTruthy mx ∧ s.length > mx.getD 0 then
    some (.invalidStringLengthException path value
      ("<= " ++ toString (mx.getD 0)))
  else none

/-- The string payload of a string value (type resolution guarantees the
value is a string wherever this is applied). -/
def strVal : Value → String
  | .str s => s
  | _ => ""

/-- The entries of a dict value (type resolution guarantees the value is a
dict wherever this is applied). -/
def dictEntries : Value → List (String × Value)
  | .dict d => d
  | _ => []

mutual

/-- `__bind(value, mapping, path, out)`: returns the `out` dictionary as
mutated so far, together with the raised exception, if any. -/
def bindAux (value : Value) (node : Node) (path : List String) (out : Out) :
    Out × Option PyError :=
  match node with
  | .mk t strict opt dest mn mx children =>
    match t with
    | .other s => (out, some (.bindException path ("Unknown expected type: " ++ s)))
    | _ =>
      match resolveType value (.mk t strict opt dest mn mx children) path with
      | .error e => (out, some e)
      | .ok fv =>
        let out1 := writeDest dest fv out
        match t with
        | .str => (out1, checkStr mn mx value (strVal fv) path)
        | .dict => bindChildren children (dictEntries fv) path out1
        | _ => (out1, none)

/-- The `for key, node in children.items()` loop of `__bind` (lines
244-253).  As in the source, `path` is the loop-carried variable that was
rebound to `list(path) + [key]` on the previous iteration. -/
def bindChildren (children : List (String × Node))
    (fv : List (String × Value)) (path : List String) (out : Out) :
    Out × Option PyError :=
  match children with
  | [] => (out, none)
  | (key, node) :: rest =>
    let path2 := path ++ [key]
    match dictGet fv key with
    | none =>
        if node.optional then bindChildren rest fv path2 out
        else (out, some (.requiredValueMissingException path2 key))
    | some v =>
        match bindAux v node path2 out with
        | (out2, some e) => (out2, some e)
        | (out2, none) => bindChildren rest fv path2 out2

end

/-- The last value written under key `d` in a write sequence (later
entries win), `none` when `d` is never written. -/
def lastWrite (ws : List (String × Value)) (d : String) : Option Value :=
  match ws with
  | [] => none
  | (k, v) :: rest =>
      match lastWrite rest d with
      | some w => some w
      | none => if k = d then some v else none

/-- Left-biased choice on optional values. -/
def orElseO (a b : Option Value) : Option Value :=
  match a with
  | some v => some v
  | none => b

/-- The write performed by `writeDest`, as a (possibly empty) write
sequence. -/
def destWrites (dest : Option String) (fv : Value) : List (String × Value) :=
  match dest with
  | some d => if d = "" then [] else [(d, fv)]
  | none => []

mutual

/-- The sequence of `out[destination] = final_value` writes performed by a
successful `bindAux` run, in traversal order: a node's own write first,
then the writes of its children left to right.  Used to state the
flattening-collision behavior of the output dictionary; on a failing run
its value is irrelevant (the theorems about it assume success). -/
def bindWrites (value : Value) (node : Node) : List (String × Value) :=
  match node with
  | .mk t strict opt dest mn mx children =>
    match t with
    | .other _ => []
    | _ =>
      match resolveType value (.mk t strict opt dest mn mx children) [] with
      | .error _ => []
      | .ok fv =>
        match t with
        | .dict => destWrites dest fv ++ childWrites children (dictEntries fv)
        | _ => destWrites dest fv

/-- The writes performed by the children loop, in iteration order. -/
def childWrites (children : List (String × Node))
    (fv : List (String × Value)) : List (String × Value) :=
  match children with
  | [] => []
  | (key, node) :: rest =>
      match dictGet fv key with
      | none => childWrites rest fv
      | some v => bindWrites v node ++ childWrites rest fv

end

/-- `bind(data, mapping)` (lines 200-203): fresh `out`, `mapping['root']`
lookup (a plain `KeyError` when absent), then the recursive bind. -/
def bind (data : Value) (mapping : List (String × Node)) :
    Except PyError Out :=
  match dictGet mapping "root" with
  | none => .error (.keyError "root")
  | some root =>
      match bindAux data root ["root"] [] with
      | (out, none) => .ok out
      | (_, some e) => .error e

/-! ### Helper lemmas -/

theorem dictGet_dictSet {α : Type} (d : List (String × α)) (k k2 : String)
    (v : α) :
    dictGet (dictSet d k v) k2 = if k = k2 then some v else dictGet d k2 := by
  induction d with
  | nil => by_cases hk : k = k2 <;> simp [dictGet, dictSet, hk]
  | cons p tl ih =>
      obtain ⟨k3, v3⟩ := p
      by_cases h3 : k3 = k
      · subst h3
        by_cases hk : k3 = k2 <;> simp [dictGet, dictSet, hk]
      · by_cases hk2 : k3 = k2
        · subst hk2
          have hk : ¬k = k3 := fun h => h3 h.symm
          simp [dictGet, dictSet, h3, hk]
        · simp [dictGet, dictSet, h3, hk2, ih]

theorem orElseO_none (a : Option Value) : orElseO a none = a := by
  cases a <;> rfl

theorem lastWrite_append (xs ys : List (String × Value)) (d : String) :
    lastWrite (xs ++ ys) d = orElseO (lastWrite ys d) (lastWrite xs d) := by
  induction xs with
  | nil => simp [lastWrite, orElseO_none]
  | cons p tl ih =>
      obtain ⟨k, v⟩ := p
      cases hys : lastWrite ys d <;> cases hlt : lastWrite tl d <;>
        simp [lastWrite, ih, hys, hlt, orElseO]

theorem resolveType_ok_iff (value : Value) (node : Node) (p q : List String)
    (fv : Value) :
    resolveType value node p = .ok fv ↔ resolveType value node q = .ok fv := by
  unfold resolveType
  split
  · split <;> simp
  · split <;> simp

theorem bindAux_resolve_error (t : Ty) (strict opt : Bool)
    (dest : Option String) (mn mx : Option Nat) (cs : List (String × Node))
    (value : Value) (path : List String) (out : Out) (e : PyError)
    (hk : t.isKnown = true)
    (hres : resolveType value (.mk t strict opt dest mn mx cs) path = .error e) :
    bindAux value (.mk t strict opt dest mn mx cs) path out = (out, some e) := by
  cases t <;> simp [Ty.isKnown] at hk <;> simp [bindAux, hres]

theorem bindAux_str (strict opt : Bool) (dest : Option String)
    (mn mx : Option Nat) (cs : List (String × Node)) (value : Value)
    (path : List String) (out : Out) (fv : Value)
    (hres : resolveType value (.mk .str strict opt dest mn mx cs) path = .ok fv) :
    bindAux value (.mk .str strict opt dest mn mx cs) path out =
      (writeDest dest fv out, checkStr mn mx value (strVal fv) path) := by
  simp [bindAux, hres]

theorem bindAux_dict (strict opt : Bool) (dest : Option String)
    (mn mx : Option Nat) (cs : List (String × Node)) (value : Value)
    (path : List String) (out : Out) (fv : Value)
    (hres : resolveType value (.mk .dict strict opt dest mn mx cs) path = .ok fv) :
    bindAux value (.mk .dict strict opt dest mn mx cs) path out =
      bindChildren cs (dictEntries fv) path (writeDest dest fv out) := by
  simp [bindAux, hres]

/-! ### Claims -/

/-- C4: with `strict=true` and expected type `int`, binding any string
value raises `InvalidTypeException(path, str, int, value, True)`, and
binding an actual int succeeds with the final value being the input value
itself, unchanged. -/
theorem c4_strict_int_enforcement (opt : Bool) (dest : Option String)
    (mn mx : Option Nat) (cs : List (String × Node)) (path : List String)
    (out : Out) :
    (∀ s : String,
      bindAux (.str s) (.mk .int true opt dest mn mx cs) path out =
        (out, some (.invalidTypeException path .str .int (.str s) true)))
    ∧ (∀ n : Int,
      resolveType (.int n) (.mk .int true opt dest mn mx cs) path = .ok (.int n)
      ∧ bindAux (.int n) (.mk .int true opt dest mn mx cs) path out =
          (writeDest dest (.int n) out, none)) := by
  constructor
  · intro s
    simp [bindAux, resolveType, Node.strict, Node.type, typeIs, Value.typeOf]
  · intro n
    refine ⟨?_, ?_⟩ <;>
      simp [bindAux, resolveType, Node.strict, Node.type, typeIs, Value.typeOf]

/-- C5: with `strict=false` and expected type `int`, binding `"78"`
yields the integer `78` under the destination, and binding `"abc"` raises
`InvalidTypeException(path, str, int, "abc", False)`. -/
theorem c5_coercion_int :
    bind (.str "78") [("root", .mk .int false false (some "age") none none [])] =
      .ok [("age", .int 78)]
    ∧ bind (.str "abc") [("root", .mk .int false false (some "age") none none [])] =
      .error (.invalidTypeException ["root"] .str .int (.str "abc") false) :=
  ⟨rfl, rfl⟩

/-- C9: a schema node whose `"type"` entry is not one of the five
recognized type objects makes `__bind` raise the base `BindException`
carrying the path and a free-text message, whatever the data value. -/
theorem c9_unknown_type (s : String) (strict opt : Bool)
    (dest : Option String) (mn mx : Option Nat) (cs : List (String × Node))
    (value : Value) (path : List String) (out : Out) :
    bindAux value (.mk (.other s) strict opt dest mn mx cs) path out =
      (out, some (.bindException path ("Unknown expected type: " ++ s))) := rfl

/-- C10: a schema dictionary with no `"root"` entry makes `bind` raise a
plain `KeyError` from the `mapping['root']` lookup, before the recursive
validation is entered. -/
theorem c10_missing_root (data : Value) (schema : List (String × Node))
    (h : dictGet schema "root" = none) :
    bind data schema = .error (.keyError "root") := by
  simp [bind, h]

theorem c10_missing_root_witness :
    dictGet ([("r", Node.mk .int true false none none none [])]) "root" = none
    ∧ bind (.int 5) [("r", Node.mk .int true false none none none [])] =
        .error (.keyError "root") :=
  ⟨rfl, c10_missing_root (.int 5) [("r", Node.mk .int true false none none none [])] rfl⟩

/-- C1: the children loop of `__bind` rebinds its `path` variable
(`path = list(path); path.append(key)`), so the extended path of one child
is the base path of the next sibling.  For a root mapping with two strict
integer children `a` and `b`, where `a` binds successfully and `b` fails,
the failure at `b` is reported with the earlier sibling key `a` in its
path, `["root", "a", "b"]`, whereas the claim (and the `BindException`
docstring, a list of strings leading to the location of the value)
requires `["root", "b"]`.  On sibling-free chains the reported path is
the claimed one, as the second conjunct shows on the spec's own
path-accuracy example. -/
theorem c1_sibling_key_leaks_into_path :
    bind (.dict [("a", .int 1), ("b", .str "x")])
      [("root", .mk .dict true false none none none
        [("a", .mk .int true false none none none []),
         ("b", .mk .int true false none none none [])])] =
      .error (.invalidTypeException ["root", "a", "b"] .str .int (.str "x") true)
    ∧ bind (.dict [("info", .dict [("age", .str "not-a-number")])])
      [("root", .mk .dict true false none none none
        [("info", .mk .dict true false none none none
          [("age", .mk .int true false (some "age") none none [])])])] =
      .error (.invalidTypeException ["root", "info", "age"] .str .int
        (.str "not-a-number") true) :=
  ⟨rfl, rfl⟩

/-- C2 counterexample: `int([])` raises `TypeError`, which `__bind` does
not catch (it catches only `ValueError`), so a coercion failure escapes
the `bind` call as a bare `TypeError` rather than as
`InvalidTypeException`. -/
theorem c2_typeerror_escapes :
    bind (.list []) [("root", .mk .int false false none none none [])] =
      .error .typeError := rfl

/-- C2 (amended): with `strict=false` and a recognized expected type, a
coercion failure raising `ValueError` is re-raised as
`InvalidTypeException(path, found, expected, value, False)`, while a
coercion failure raising `TypeError` escapes unchanged as `TypeError`. -/
theorem c2_coercion_failures (t : Ty) (opt : Bool) (dest : Option String)
    (mn mx : Option Nat) (cs : List (String × Node)) (value : Value)
    (path : List String) (out : Out) (hk : t.isKnown = true) :
    (coerce t value = .error .valueError →
      bindAux value (.mk t false opt dest mn mx cs) path out =
        (out, some (.invalidTypeException path value.typeOf t value false)))
    ∧ (coerce t value = .error .typeError →
      bindAux value (.mk t false opt dest mn mx cs) path out =
        (out, some .typeError)) := by
  refine ⟨fun hc => ?_, fun hc => ?_⟩ <;>
    exact bindAux_resolve_error t false opt dest mn mx cs value path out _ hk
      (by simp [resolveType, Node.strict, Node.type, hc])

theorem c2_coercion_failures_witness :
    Ty.isKnown .int = true
    ∧ bindAux (.str "abc") (.mk .int false false none none none []) ["root"] [] =
        ([], some (.invalidTypeException ["root"] .str .int (.str "abc") false))
    ∧ bindAux (.list []) (.mk .int false false none none none []) ["root"] [] =
        ([], some .typeError) :=
  ⟨rfl,
   (c2_coercion_failures .int false none none none [] (.str "abc") ["root"] [] rfl).1 rfl,
   (c2_coercion_failures .int false none none none [] (.list []) ["root"] [] rfl).2 rfl⟩

/-- C7: in the children loop, a key absent from the input dictionary is
skipped outright when its node is optional (no error, no recursion, no
output write — the loop just moves on to the remaining children), and
raises `RequiredValueMissingException` naming that key when its node is
not optional. -/
theorem c7_optional_vs_required (key : String) (node : Node)
    (rest : List (String × Node)) (fv : List (String × Value))
    (path : List String) (out : Out) (habs : dictGet fv key = none) :
    (node.optional = true →
      bindChildren ((key, node) :: rest) fv path out =
        bindChildren rest fv (path ++ [key]) out)
    ∧ (node.optional = false →
      bindChildren ((key, node) :: rest) fv path out =
        (out, some (.requiredValueMissingException (path ++ [key]) key))) := by
  refine ⟨fun hopt => ?_, fun hopt => ?_⟩ <;> simp [bindChildren, habs, hopt]

theorem c7_optional_vs_required_witness :
    dictGet ([] : List (String × Value)) "age" = none
    ∧ bindChildren [("age", Node.mk .int true true none none none [])] [] ["root"] [] =
        bindChildren [] [] (["root"] ++ ["age"]) []
    ∧ bindChildren [("age", Node.mk .int true false none none none [])] [] ["root"] [] =
        ([], some (.requiredValueMissingException (["root"] ++ ["age"]) "age")) :=
  ⟨rfl,
   (c7_optional_vs_required "age" (Node.mk .int true true none none none [])
     [] [] ["root"] [] rfl).1 rfl,
   (c7_optional_vs_required "age" (Node.mk .int true false none none none [])
     [] [] ["root"] [] rfl).2 rfl⟩

/-- C3: on a `str` node with a nonempty destination, the destination
write happens before the length checks, so when `min_len` or `max_len` is
violated the call raises `InvalidStringLengthException` while the output
dictionary, as of the moment of the raise, already holds the final string
under the destination key. -/
theorem c3_write_precedes_length_check (strict opt : Bool) (d : String)
    (mn mx : Option Nat) (cs : List (String × Node)) (value : Value)
    (s : String) (path : List String) (out : Out)
    (hd : ¬d = "")
    (hres : resolveType value (.mk .str strict opt (some d) mn mx cs) path =
      .ok (.str s)) :
    ((optNatTruthy mn = true ∧ s.length < mn.getD 0) →
      bindAux value (.mk .str strict opt (some d) mn mx cs) path out =
        (dictSet out d (.str s),
         some (.invalidStringLengthException path value
           (">= " ++ toString (mn.getD 0))))
      ∧ dictGet (dictSet out d (.str s)) d = some (.str s))
    ∧ (¬(optNatTruthy mn = true ∧ s.length < mn.getD 0) →
       (optNatTruthy mx = true ∧ s.length > mx.getD 0) →
      bindAux value (.mk .str strict opt (some d) mn mx cs) path out =
        (dictSet out d (.str s),
         some (.invalidStringLengthException path value
           ("<= " ++ toString (mx.getD 0))))
      ∧ dictGet (dictSet out d (.str s)) d = some (.str s)) := by
  have hb := bindAux_str strict opt (some d) mn mx cs value path out (.str s) hres
  refine ⟨fun hmin => ⟨?_, ?_⟩, fun hnmin hmax => ⟨?_, ?_⟩⟩
  · rw [hb]
    simp only [writeDest, strVal, checkStr]
    rw [if_neg hd, if_pos hmin]
  · simp [dictGet_dictSet]
  · rw [hb]
    simp only [writeDest, strVal, checkStr]
    rw [if_neg hd, if_neg hnmin, if_pos hmax]
  · simp [dictGet_dictSet]

theorem c3_write_precedes_length_check_witness :
    bindAux (.str "") (.mk .str true false (some "name") (some 1) (some 10) [])
        ["root"] [] =
      ([("name", .str "")],
       some (.invalidStringLengthException ["root"] (.str "") ">= 1"))
    ∧ dictGet [("name", Value.str "")] "name" = some (.str "") := by
  have h := (c3_write_precedes_length_check true false "name" (some 1) (some 10)
    [] (.str "") "" ["root"] [] (by decide) rfl).1 ⟨rfl, by decide⟩
  simpa using h

/-- C6: on a `str` node, after type resolution the `min_len` bound is
checked before the `max_len` bound; a set, nonzero bound that is violated
raises `InvalidStringLengthException` with constraint `">= min_len"`
respectively `"<= max_len"`, and a string violating neither bound
succeeds.  A bound that is unset or zero is falsy and imposes no
constraint (the conditions below are exactly the truthiness tests of the
code). -/
theorem c6_string_length_bounds (strict opt : Bool) (dest : Option String)
    (mn mx : Option Nat) (cs : List (String × Node)) (value : Value)
    (s : String) (path : List String) (out : Out)
    (hres : resolveType value (.mk .str strict opt dest mn mx cs) path =
      .ok (.str s)) :
    ((optNatTruthy mn = true ∧ s.length < mn.getD 0) →
      bindAux value (.mk .str strict opt dest mn mx cs) path out =
        (writeDest dest (.str s) out,
         some (.invalidStringLengthException path value
           (">= " ++ toString (mn.getD 0)))))
    ∧ (¬(optNatTruthy mn = true ∧ s.length < mn.getD 0) →
       (optNatTruthy mx = true ∧ s.length > mx.getD 0) →
      bindAux value (.mk .str strict opt dest mn mx cs) path out =
        (writeDest dest (.str s) out,
         some (.invalidStringLengthException path value
           ("<= " ++ toString (mx.getD 0)))))
    ∧ (¬(optNatTruthy mn = true ∧ s.length < mn.getD 0) →
       ¬(optNatTruthy mx = true ∧ s.length > mx.getD 0) →
      bindAux value (.mk .str strict opt dest mn mx cs) path out =
        (writeDest dest (.str s) out, none)) := by
  have hb := bindAux_str strict opt dest mn mx cs value path out (.str s) hres
  refine ⟨fun hmin => ?_, fun hnmin hmax => ?_, fun hnmin hnmax => ?_⟩ <;>
    rw [hb] <;> simp only [strVal, checkStr]
  · rw [if_pos hmin]
  · rw [if_neg hnmin, if_pos hmax]
  · rw [if_neg hnmin, if_neg hnmax]

theorem c6_string_length_bounds_witness :
    bindAux (.str "") (.mk .str true false (some "name") (some 1) (some 10) [])
        ["root"] [] =
      ([("name", .str "")],
       some (.invalidStringLengthException ["root"] (.str "") ">= 1"))
    ∧ bindAux (.str "aaaaaaaaaaa")
        (.mk .str true false (some "name") (some 1) (some 10) []) ["root"] [] =
      ([("name", .str "aaaaaaaaaaa")],
       some (.invalidStringLengthException ["root"] (.str "aaaaaaaaaaa") "<= 10"))
    ∧ bindAux (.str "John Doe")
        (.mk .str true false (some "name") (some 1) (some 10) []) ["root"] [] =
      ([("name", .str "John Doe")], none) := by
  refine ⟨?_, ?_, ?_⟩
  · have h := (c6_string_length_bounds true false (some "name") (some 1)
      (some 10) [] (.str "") "" ["root"] [] rfl).1 ⟨rfl, by decide⟩
    simpa using h
  · have h := (c6_string_length_bounds true false (some "name") (some 1)
      (some 10) [] (.str "aaaaaaaaaaa") "aaaaaaaaaaa" ["root"] [] rfl).2.1
      (by decide) ⟨rfl, by decide⟩
    simpa using h
  · have h := (c6_string_length_bounds true false (some "name") (some 1)
      (some 10) [] (.str "John Doe") "John Doe" ["root"] [] rfl).2.2
      (by decide) (by decide)
    simpa using h

theorem orElseO_assoc (a b c : Option Value) :
    orElseO (orElseO a b) c = orElseO a (orElseO b c) := by
  cases a <;> rfl

theorem dictGet_writeDest (dest : Option String) (fv : Value) (out : Out)
    (d : String) :
    dictGet (writeDest dest fv out) d =
      orElseO (lastWrite (destWrites dest fv) d) (dictGet out d) := by
  cases dest with
  | none => simp [writeDest, destWrites, lastWrite, orElseO]
  | some dd =>
      by_cases he : dd = ""
      · simp [writeDest, destWrites, lastWrite, orElseO, he]
      · by_cases hdd : dd = d
        · subst hdd
          simp [writeDest, destWrites, lastWrite, orElseO, he, dictGet_dictSet]
        · simp [writeDest, destWrites, lastWrite, orElseO, he, hdd,
            dictGet_dictSet]

mutual

/-- On a successful run, the final output dictionary agrees at every key
with the last write of the traversal-ordered write sequence, falling back
to the incoming dictionary for keys never written. -/
theorem bindAux_lastWrite (value : Value) (node : Node) (path : List String)
    (out : Out) (d : String)
    (h : (bindAux value node path out).2 = none) :
    dictGet (bindAux value node path out).1 d =
      orElseO (lastWrite (bindWrites value node) d) (dictGet out d) := by
  cases node with
  | mk t strict opt dest mn mx children =>
    cases t with
    | other s => simp [bindAux] at h
    | str =>
        cases hres : resolveType value (.mk .str strict opt dest mn mx children) path with
        | error e => simp [bindAux, hres] at h
        | ok fv =>
            have hres0 := (resolveType_ok_iff value
              (.mk .str strict opt dest mn mx children) path [] fv).mp hres
            simp [bindAux, hres, bindWrites, hres0, dictGet_writeDest]
    | int =>
        cases hres : resolveType value (.mk .int strict opt dest mn mx children) path with
        | error e => simp [bindAux, hres] at h
        | ok fv =>
            have hres0 := (resolveType_ok_iff value
              (.mk .int strict opt dest mn mx children) path [] fv).mp hres
            simp [bindAux, hres, bindWrites, hres0, dictGet_writeDest]
    | float =>
        cases hres : resolveType value (.mk .float strict opt dest mn mx children) path with
        | error e => simp [bindAux, hres] at h
        | ok fv =>
            have hres0 := (resolveType_ok_iff value
              (.mk .float strict opt dest mn mx children) path [] fv).mp hres
            simp [bindAux, hres, bindWrites, hres0, dictGet_writeDest]
    | list =>
        cases hres : resolveType value (.mk .list strict opt dest mn mx children) path with
        | error e => simp [bindAux, hres] at h
        | ok fv =>
            have hres0 := (resolveType_ok_iff value
              (.mk .list strict opt dest mn mx children) path [] fv).mp hres
            simp [bindAux, hres, bindWrites, hres0, dictGet_writeDest]
    | dict =>
        cases hres : resolveType value (.mk .dict strict opt dest mn mx children) path with
        | error e => simp [bindAux, hres] at h
        | ok fv =>
            have hres0 := (resolveType_ok_iff value
              (.mk .dict strict opt dest mn mx children) path [] fv).mp hres
            have hb := bindAux_dict strict opt dest mn mx children value path out fv hres
            rw [hb] at h ⊢
            have hc := bindChildren_lastWrite children (dictEntries fv) path
              (writeDest dest fv out) d h
            rw [hc, dictGet_writeDest]
            simp [bindWrites, hres0, lastWrite_append, orElseO_assoc]

theorem bindChildren_lastWrite (children : List (String × Node))
    (fv : List (String × Value)) (path : List String) (out : Out) (d : String)
    (h : (bindChildren children fv path out).2 = none) :
    dictGet (bindChildren children fv path out).1 d =
      orElseO (lastWrite (childWrites children fv) d) (dictGet out d) := by
  cases children with
  | nil => simp [bindChildren, childWrites, lastWrite, orElseO]
  | cons p rest =>
      obtain ⟨key, node⟩ := p
      cases hkey : dictGet fv key with
      | none =>
          cases hopt : node.optional with
          | true =>
              rw [bindChildren] at h ⊢
              simp only [hkey, hopt, if_pos] at h ⊢
              rw [bindChildren_lastWrite rest fv (path ++ [key]) out d h]
              simp [childWrites, hkey]
          | false =>
              rw [bindChildren] at h
              simp [hkey, hopt] at h
      | some v =>
          rcases hba : bindAux v node (path ++ [key]) out with ⟨out2, e2⟩
          cases e2 with
          | some e =>
              rw [bindChildren] at h
              simp only [hkey, hba] at h
              simp at h
          | none =>
              rw [bindChildren] at h ⊢
              simp only [hkey, hba] at h ⊢
              rw [bindChildren_lastWrite rest fv (path ++ [key]) out2 d h]
              have h2 : (bindAux v node (path ++ [key]) out).2 = none := by
                rw [hba]
              have hw := bindAux_lastWrite v node (path ++ [key]) out d h2
              rw [hba] at hw
              simp only at hw
              rw [hw]
              simp [childWrites, hkey, lastWrite_append, orElseO_assoc]

end

/-- C8: on a successful `bind`, the output dictionary holds under each
destination key the value of the last write to that key in depth-first
traversal order (`bindWrites`), so when two nodes at different depths
share a destination, the later-visited node's value silently overwrites
the earlier one's. -/
theorem c8_later_visited_wins (data : Value) (schema : List (String × Node))
    (root : Node) (out : Out) (d : String)
    (hroot : dictGet schema "root" = some root)
    (hok : bind data schema = .ok out) :
    dictGet out d = lastWrite (bindWrites data root) d := by
  unfold bind at hok
  rw [hroot] at hok
  rcases hba : bindAux data root ["root"] [] with ⟨out2, e2⟩
  cases e2 with
  | none =>
      simp only [hba] at hok
      injection hok with hout
      subst hout
      have h2 : (bindAux data root ["root"] []).2 = none := by rw [hba]
      have hw := bindAux_lastWrite data root ["root"] [] d h2
      rw [hba] at hw
      simp only at hw
      rw [hw]
      simp [dictGet, orElseO_none]
  | some e => simp [hba] at hok

theorem c8_later_visited_wins_witness :
    dictGet
        [("root", Node.mk .dict true false none none none
          [("a", Node.mk .int true false (some "x") none none []),
           ("sub", Node.mk .dict true false none none none
             [("b", Node.mk .int true false (some "x") none none [])])])]
        "root" =
      some (Node.mk .dict true false none none none
        [("a", Node.mk .int true false (some "x") none none []),
         ("sub", Node.mk .dict true false none none none
           [("b", Node.mk .int true false (some "x") none none [])])])
    ∧ bind (.dict [("a", .int 1), ("sub", .dict [("b", .int 2)])])
        [("root", Node.mk .dict true false none none none
          [("a", Node.mk .int true false (some "x") none none []),
           ("sub", Node.mk .dict true false none none none
             [("b", Node.mk .int true false (some "x") none none [])])])] =
      .ok [("x", .int 2)]
    ∧ dictGet [("x", Value.int 2)] "x" =
        lastWrite (bindWrites (.dict [("a", .int 1), ("sub", .dict [("b", .int 2)])])
          (Node.mk .dict true false none none none
            [("a", Node.mk .int true false (some "x") none none []),
             ("sub", Node.mk .dict true false none none none
               [("b", Node.mk .int true false (some "x") none none [])])]))
          "x"
    ∧ lastWrite (bindWrites (.dict [("a", .int 1), ("sub", .dict [("b", .int 2)])])
          (Node.mk .dict true false none none none
            [("a", Node.mk .int true false (some "x") none none []),
             ("sub", Node.mk .dict true false none none none
               [("b", Node.mk .int true false (some "x") none none [])])]))
          "x" = some (.int 2) :=
  ⟨rfl, rfl,
   c8_later_visited_wins
     (.dict [("a", .int 1), ("sub", .dict [("b", .int 2)])])
     [("root", Node.mk .dict true false none none none
       [("a", Node.mk .int true false (some "x") none none []),
        ("sub", Node.mk .dict true false none none none
          [("b", Node.mk .int true false (some "x") none none [])])])]
     (Node.mk .dict true false none none none
       [("a", Node.mk .int true false (some "x") none none []),
        ("sub", Node.mk .dict true false none none none
          [("b", Node.mk .int true false (some "x") none none [])])])
     [("x", Value.int 2)] "x" rfl rfl,
   rfl⟩

end Binddict
